import Mathlib

/-!
# Command dispatch of the `tesla` client (`commands.go`)

A shallow embedding of the command methods of `Vehicle` and of `sendCommand`.

Modelling conventions.

* A Go `string` is a Lean `String`; a Go `[]byte` is `Bytes = Option String`, where `none` is the
  nil slice and `some s` a slice holding the bytes of `s` (so `[]byte(s)` is `some s`).
* `int`, `int64` are `Int`; no arithmetic is performed on them, they are only printed.
* `float64` is its 64-bit pattern; no arithmetic is performed on it either.
* A pair `(x, err)` returned by a Go function is a Lean pair whose second component is an
  `Option GoError` (`none` is the nil error).
* The HTTP client, the JSON codec and the drive-state read live outside `commands.go`; they are
  the fields of `Env`.  Every command threads the list of POST requests issued so far.
-/

namespace Tesla

/-! ## Go values -/

/-- Go byte slice: `none` is nil, `some s` holds the bytes of `s`. -/
abbrev Bytes := Option String

/-- Go `len` on a byte slice. -/
def len : Bytes → Nat
  | none => 0
  | some s => s.utf8ByteSize

/-- Go `error` values met in `commands.go`, told apart by the call that produced them. -/
inductive GoError where
  /-- returned by `ActiveClient.post` -/
  | transport (msg : String)
  /-- returned by `json.Unmarshal` -/
  | decode (msg : String)
  /-- returned by `Vehicle.DriveState` -/
  | state (msg : String)
  /-- allocated by `errors.New` -/
  | errorString (text : String)
  deriving DecidableEq, Repr

/-- The `Error()` method: the message of an error. -/
def GoError.Error : GoError → String
  | .transport msg => msg
  | .decode msg => msg
  | .state msg => msg
  | .errorString text => text

/-- Go `errors.New`. -/
def errors.New (text : String) : GoError := .errorString text

/-- 64-bit pattern of a `float64`; the zero value is the pattern `0`. -/
structure Float64 where
  bits : Nat
  deriving DecidableEq, Repr

instance : Zero Float64 := ⟨⟨0⟩⟩

/-- Go `strconv.FormatInt(i, base)`, for bases up to ten. -/
def strconv.FormatInt (i : Int) (base : Nat) : String :=
  match i with
  | .ofNat n => String.mk (Nat.toDigits base n)
  | .negSucc n => "-" ++ String.mk (Nat.toDigits base (n + 1))

/-- Go `strconv.Itoa(i)`, which is `FormatInt(int64(i), 10)`. -/
def strconv.Itoa (i : Int) : String := strconv.FormatInt i 10

/-- Go `strconv.FormatBool`. -/
def strconv.FormatBool (b : Bool) : String := if b then "true" else "false"

/-! ## Data model -/

/-- The inner struct of `CommandResponse`. -/
structure CommandResponse.Inner where
  Reason : String
  Result : Bool
  deriving DecidableEq, Repr

/-- Response from the Tesla API after POSTing a command. -/
structure CommandResponse where
  Response : CommandResponse.Inner
  deriving DecidableEq, Repr

/-- The value `&CommandResponse{}`. -/
def CommandResponse.zero : CommandResponse := ⟨⟨"", false⟩⟩

/-- Required elements to POST an Autopark/Summon request. -/
structure AutoParkRequest where
  VehicleID : Int
  Lat : Float64
  Lon : Float64
  Action : String
  deriving DecidableEq, Repr

/-- The fields of `Vehicle` that `commands.go` reads. -/
structure Vehicle where
  ID : Int
  VehicleID : Int
  deriving DecidableEq, Repr

/-- The fields of `DriveState` that `commands.go` reads. -/
structure DriveState where
  Latitude : Float64
  Longitude : Float64
  deriving DecidableEq, Repr

/-- The field of `VehicleResponse` that `commands.go` reads; `none` is the nil pointer. -/
structure VehicleResponse where
  Response : Option Vehicle
  deriving DecidableEq, Repr

/-- The value `&VehicleResponse{}`. -/
def VehicleResponse.zero : VehicleResponse := ⟨none⟩

/-- One POST request as handed to `ActiveClient.post`. -/
structure Request where
  url : String
  body : Bytes
  deriving DecidableEq, Repr

/-! ## Environment -/

/-- What `commands.go` uses and does not define. -/
structure Env where
  /-- the constant `BaseURL` -/
  BaseURL : String
  /-- what `ActiveClient.post(url, body)` returns: the response body and the failure, if any -/
  post : String → Bytes → Bytes × Option String
  /-- how `encoding/json` fills a `CommandResponse` from a non-empty input -/
  decodeCommand : String → CommandResponse → CommandResponse × Option String
  /-- how `encoding/json` fills a `VehicleResponse` from a non-empty input -/
  decodeVehicle : String → VehicleResponse → VehicleResponse × Option String
  /-- the bytes `json.Marshal` returns for an `AutoParkRequest` -/
  Marshal : AutoParkRequest → Bytes
  /-- the text `strconv.FormatFloat(x, 'f', -1, 32)` returns -/
  FormatFloat : Float64 → String
  /-- the drive-state read of a vehicle, by vehicle `ID`: the state, or the failure -/
  readDriveState : Int → DriveState ⊕ String

/-- The call `ActiveClient.post(url, body)`: it is recorded, and answered by the environment. -/
def ActiveClient.post (env : Env) (url : String) (body : Bytes) (log : List Request) :
    (Bytes × Option GoError) × List Request :=
  (((env.post url body).1, (env.post url body).2.map GoError.transport), log ++ [⟨url, body⟩])

/-- Go `json.Unmarshal(data, v)`.  `encoding/json` first validates `data`, and an empty input is
the syntax error `unexpected end of JSON input`; `v` is then left as it was. -/
def json.Unmarshal {α : Type} (decode : String → α → α × Option String) (data : Bytes) (v : α) :
    α × Option GoError :=
  match data with
  | none => (v, some (.decode "unexpected end of JSON input"))
  | some s =>
    if s.utf8ByteSize = 0 then (v, some (.decode "unexpected end of JSON input"))
    else ((decode s v).1, (decode s v).2.map GoError.decode)

/-! ## `commands.go` -/

/-- Sends a command to the vehicle. -/
def sendCommand (env : Env) (url : String) (reqBody : Bytes) (log : List Request) :
    (Bytes × Option GoError) × List Request :=
  let p := ActiveClient.post env url reqBody log
  match p.1.2 with
  | some err => ((none, some err), p.2)
  | none =>
    if len p.1.1 > 0 then
      let u := json.Unmarshal env.decodeCommand p.1.1 CommandResponse.zero
      match u.2 with
      | some err => ((none, some err), p.2)
      | none =>
        if u.1.Response.Result != true && u.1.Response.Reason != "" then
          ((none, some (errors.New u.1.Response.Reason)), p.2)
        else ((p.1.1, none), p.2)
    else ((p.1.1, none), p.2)

/-- Modelled from the spec: `Vehicle.DriveState`, the "secondary read (current drive state)" that
autopark and Homelink issue before the write; it is defined outside `commands.go`.  On success it
yields the state read; "if the read fails, the write still proceeds using zero-valued
coordinates", so on failure it yields the failure together with a zero-valued state. -/
def Vehicle.DriveState (env : Env) (v : Vehicle) : DriveState × Option GoError :=
  match env.readDriveState v.ID with
  | .inl driveState => (driveState, none)
  | .inr msg => (⟨0, 0⟩, some (.state msg))

/-- Performs the actual auto park/summon request for the vehicle. -/
def Vehicle.autoPark (env : Env) (v : Vehicle) (action : String) (log : List Request) :
    Option GoError × List Request :=
  let apiURL := env.BaseURL ++ "/vehicles/" ++ strconv.FormatInt v.ID 10 ++ "/command/autopark_request"
  let driveState := (v.DriveState env).1
  let autoParkRequest : AutoParkRequest :=
    ⟨v.VehicleID, driveState.Latitude, driveState.Longitude, action⟩
  let body := env.Marshal autoParkRequest
  let r := sendCommand env apiURL body log
  (r.1.2, r.2)

/-- Causes the vehicle to abort the Autopark request. -/
def Vehicle.AutoparkAbort (env : Env) (v : Vehicle) (log : List Request) :
    Option GoError × List Request :=
  v.autoPark env "abort" log

/-- Causes the vehicle to pull forward. -/
def Vehicle.AutoparkForward (env : Env) (v : Vehicle) (log : List Request) :
    Option GoError × List Request :=
  v.autoPark env "start_forward" log

/-- Causes the vehicle to go in reverse. -/
def Vehicle.AutoparkReverse (env : Env) (v : Vehicle) (log : List Request) :
    Option GoError × List Request :=
  v.autoPark env "start_reverse" log

/-- Performs the actual enable/disable Sentry Mode request. -/
def Vehicle.setSentryMode (env : Env) (v : Vehicle) (newState : Bool) (log : List Request) :
    Option GoError × List Request :=
  let apiURL := env.BaseURL ++ "/vehicles/" ++ strconv.FormatInt v.ID 10 ++ "/command/set_sentry_mode"
  let theJSON := "\x7b\"on\": " ++ strconv.FormatBool newState ++ "\x7d"
  let r := ActiveClient.post env apiURL (some theJSON) log
  (r.1.2, r.2)

/-- The method `SentryModeEnable`. -/
def Vehicle.SentryModeEnable (env : Env) (v : Vehicle) (log : List Request) :
    Option GoError × List Request :=
  v.setSentryMode env true log

/-- The method `SentryModeDisable`. -/
def Vehicle.SentryModeDisable (env : Env) (v : Vehicle) (log : List Request) :
    Option GoError × List Request :=
  v.setSentryMode env false log

/-- Opens and closes the configured Homelink garage door of the vehicle. -/
def Vehicle.TriggerHomelink (env : Env) (v : Vehicle) (log : List Request) :
    Option GoError × List Request :=
  let apiURL := env.BaseURL ++ "/vehicles/" ++ strconv.FormatInt v.ID 10 ++ "/command/trigger_homelink"
  let driveState := (v.DriveState env).1
  let autoParkRequest : AutoParkRequest := ⟨0, driveState.Latitude, driveState.Longitude, ""⟩
  let body := env.Marshal autoParkRequest
  let r := sendCommand env apiURL body log
  (r.1.2, r.2)

/-- Wakes up the vehicle when it is powered off. -/
def Vehicle.Wakeup (env : Env) (v : Vehicle) (log : List Request) :
    (Option Vehicle × Option GoError) × List Request :=
  let apiURL := env.BaseURL ++ "/vehicles/" ++ strconv.FormatInt v.ID 10 ++ "/wake_up"
  let r := sendCommand env apiURL none log
  match r.1.2 with
  | some err => ((none, some err), r.2)
  | none =>
    let u := json.Unmarshal env.decodeVehicle r.1.1 VehicleResponse.zero
    match u.2 with
    | some err => ((none, some err), r.2)
    | none => ((u.1.Response, none), r.2)

/-- Set the charge limit to a custom percentage. -/
def Vehicle.SetChargeLimit (env : Env) (v : Vehicle) (percent : Int) (log : List Request) :
    Option GoError × List Request :=
  let apiURL := env.BaseURL ++ "/vehicles/" ++ strconv.FormatInt v.ID 10 ++ "/command/set_charge_limit"
  let theJSON := "\x7b\"percent\": " ++ strconv.Itoa percent ++ "\x7d"
  let r := ActiveClient.post env apiURL (some theJSON) log
  (r.1.2, r.2)

/-- Schedules the installation of the available software update. -/
def Vehicle.ScheduleSoftwareUpdate (env : Env) (v : Vehicle) (offset : Int) (log : List Request) :
    Option GoError × List Request :=
  let apiURL := env.BaseURL ++ "/vehicles/" ++ strconv.FormatInt v.ID 10 ++ "/command/schedule_software_update"
  let theJSON := "\x7b\"offset_sec\": " ++ strconv.FormatInt offset 10 ++ "\x7d"
  let r := ActiveClient.post env apiURL (some theJSON) log
  (r.1.2, r.2)

/-- Locks the doors of the vehicle. -/
def Vehicle.LockDoors (env : Env) (v : Vehicle) (log : List Request) :
    Option GoError × List Request :=
  let apiURL := env.BaseURL ++ "/vehicles/" ++ strconv.FormatInt v.ID 10 ++ "/command/door_lock"
  let r := sendCommand env apiURL none log
  (r.1.2, r.2)

/-- Sets the temprature of the vehicle, driver zone and passenger zone. -/
def Vehicle.SetTemprature (env : Env) (v : Vehicle) (driver passenger : Float64)
    (log : List Request) : Option GoError × List Request :=
  let driveTemp := env.FormatFloat driver
  let passengerTemp := env.FormatFloat passenger
  let apiURL := env.BaseURL ++ "/vehicles/" ++ strconv.FormatInt v.ID 10 ++ "/command/set_temps?driver_temp=" ++ driveTemp ++ "&passenger_temp=" ++ passengerTemp
  let r := ActiveClient.post env apiURL none log
  (r.1.2, r.2)

/-- The desired state of the panoramic roof. -/
def Vehicle.MovePanoRoof (env : Env) (v : Vehicle) (state : String) (percent : Int)
    (log : List Request) : Option GoError × List Request :=
  let apiURL := env.BaseURL ++ "/vehicles/" ++ strconv.FormatInt v.ID 10 ++ "/command/sun_roof_control"
  let theJSON := "\x7b\"state\": \"" ++ state ++ "\", \"percent\":" ++ strconv.Itoa percent ++ "\x7d"
  let r := ActiveClient.post env apiURL (some theJSON) log
  (r.1.2, r.2)

/-- Opens the trunk, where values may be 'front' or 'rear'. -/
def Vehicle.OpenTrunk (env : Env) (v : Vehicle) (trunk : String) (log : List Request) :
    Option GoError × List Request :=
  let apiURL := env.BaseURL ++ "/vehicles/" ++ strconv.FormatInt v.ID 10 ++ "/command/trunk_open"
  let theJSON := "\x7b\"which_trunk\": \"" ++ trunk ++ "\"\x7d"
  let r := ActiveClient.post env apiURL (some theJSON) log
  (r.1.2, r.2)

/-! ## Sample environment

A concrete remote API used to run the definitions: the vehicle with `ID` 7 answers every command
with `could_not_wake_buses`, the vehicle with `ID` 8 answers with an empty body, the vehicle with
`ID` 9 answers with something that is not JSON, and every other vehicle answers with success. -/

/-- The envelope `{"response":{"result":false,"reason":"could_not_wake_buses"}}`. -/
def failureBody : String :=
  "\x7b\"response\":\x7b\"result\":false,\"reason\":\"could_not_wake_buses\"\x7d\x7d"

/-- The envelope `{"response":{"result":true,"reason":""}}`. -/
def successBody : String :=
  "\x7b\"response\":\x7b\"result\":true,\"reason\":\"\"\x7d\x7d"

/-- A body that is not JSON. -/
def malformedBody : String := "<html>"

/-- Whether `p` starts `s`. -/
def startsWith (p s : String) : Bool := p.data.isPrefixOf s.data

/-- The sample remote API. -/
def sampleEnv : Env where
  BaseURL := "https://api"
  post := fun url _ =>
    if startsWith "https://api/vehicles/7/" url then (some failureBody, none)
    else if startsWith "https://api/vehicles/8/" url then (some "", none)
    else if startsWith "https://api/vehicles/9/" url then (some malformedBody, none)
    else (some successBody, none)
  decodeCommand := fun s v =>
    if s = failureBody then (⟨⟨"could_not_wake_buses", false⟩⟩, none)
    else if s = successBody then (⟨⟨"", true⟩⟩, none)
    else (v, some "invalid character '<' looking for beginning of value")
  decodeVehicle := fun s v =>
    if s = successBody then (v, none)
    else (v, some "invalid character '<' looking for beginning of value")
  Marshal := fun r =>
    if r.Lat = 0 ∧ r.Lon = 0 then some ("lat0lon0;" ++ r.Action) else some ("latlon;" ++ r.Action)
  FormatFloat := fun x => String.mk (Nat.toDigits 10 x.bits)
  readDriveState := fun id => if id = 7 then .inr "vehicle unavailable" else .inl ⟨⟨1⟩, ⟨2⟩⟩

/-! ## Reading a request body back

A reader for the fragment of JSON (RFC 8259) in which the hand-written bodies of `commands.go`
are meant to fall: one object whose members have string, integer, `true`, `false` or `null`
values.  It is used to say which fields a body describes. -/

/-- A member value of the fragment. -/
inductive JValue where
  | str (s : String)
  | num (n : Int)
  | bool (b : Bool)
  | null
  deriving DecidableEq, Repr

/-- Drops insignificant whitespace: space, tab, line feed, carriage return. -/
def skipWs : List Char → List Char
  | [] => []
  | c :: cs => if c = ' ' ∨ c = '\t' ∨ c = '\n' ∨ c = '\r' then skipWs cs else c :: cs

/-- Value of a hexadecimal digit. -/
def hexVal (c : Char) : Option Nat :=
  if '0' ≤ c ∧ c ≤ '9' then some (c.toNat - '0'.toNat)
  else if 'a' ≤ c ∧ c ≤ 'f' then some (c.toNat - 'a'.toNat + 10)
  else if 'A' ≤ c ∧ c ≤ 'F' then some (c.toNat - 'A'.toNat + 10)
  else none

/-- Reads the rest of a string after its opening quote: the characters it denotes, and what
follows the closing quote.  An unescaped quote closes the string; a backslash must start one of
the escapes of RFC 8259; control characters are not allowed. -/
def readString : List Char → Option (List Char × List Char)
  | [] => none
  | '"' :: rest => some ([], rest)
  | '\\' :: 'u' :: a :: b :: c :: d :: rest =>
    match hexVal a, hexVal b, hexVal c, hexVal d, readString rest with
    | some x, some y, some z, some w, some (s, out) =>
      some (Char.ofNat (((x * 16 + y) * 16 + z) * 16 + w) :: s, out)
    | _, _, _, _, _ => none
  | '\\' :: e :: rest =>
    let unescaped : Option Char :=
      if e = '"' then some '"' else if e = '\\' then some '\\' else if e = '/' then some '/'
      else if e = 'b' then some (Char.ofNat 8) else if e = 'f' then some (Char.ofNat 12)
      else if e = 'n' then some '\n' else if e = 'r' then some '\r'
      else if e = 't' then some '\t' else none
    match unescaped, readString rest with
    | some ch, some (s, out) => some (ch :: s, out)
    | _, _ => none
  | ch :: rest =>
    if ch = '\\' ∨ ch.toNat < 32 then none
    else match readString rest with
      | some (s, out) => some (ch :: s, out)
      | none => none

/-- Reads the decimal digits at the front: their value so far, how many were read, the rest. -/
def readDigits : List Char → Nat → Nat → Nat × Nat × List Char
  | [], acc, k => (acc, k, [])
  | c :: cs, acc, k =>
    if '0' ≤ c ∧ c ≤ '9' then readDigits cs (acc * 10 + (c.toNat - '0'.toNat)) (k + 1)
    else (acc, k, c :: cs)

/-- Reads an integer: an optional minus sign and digits without a superfluous leading zero. -/
def readInt (cs : List Char) : Option (Int × List Char) :=
  let neg := cs.head? = some '-'
  let ds := if neg then cs.tail else cs
  let r := readDigits ds 0 0
  if r.2.1 = 0 ∨ (ds.head? = some '0' ∧ 1 < r.2.1) then none
  else some (if neg then -(r.1 : Int) else (r.1 : Int), r.2.2)

/-- Reads one member value. -/
def readValue (cs : List Char) : Option (JValue × List Char) :=
  match cs with
  | '"' :: rest => (readString rest).map fun r => (.str (String.mk r.1), r.2)
  | 't' :: 'r' :: 'u' :: 'e' :: rest => some (.bool true, rest)
  | 'f' :: 'a' :: 'l' :: 's' :: 'e' :: rest => some (.bool false, rest)
  | 'n' :: 'u' :: 'l' :: 'l' :: rest => some (.null, rest)
  | _ => (readInt cs).map fun r => (.num r.1, r.2)

/-- Reads the members of an object, from the first member name on, to the end of the input. -/
def readMembers : Nat → List Char → Option (List (String × JValue))
  | 0, _ => none
  | fuel + 1, cs =>
    match cs with
    | '"' :: rest =>
      match readString rest with
      | none => none
      | some (name, afterName) =>
        match skipWs afterName with
        | ':' :: afterColon =>
          match readValue (skipWs afterColon) with
          | none => none
          | some (value, afterValue) =>
            match skipWs afterValue with
            | ',' :: more =>
              (readMembers fuel (skipWs more)).map fun ms => (String.mk name, value) :: ms
            | '}' :: tail => if skipWs tail = [] then some [(String.mk name, value)] else none
            | _ => none
        | _ => none
    | _ => none

/-- The fields a body describes, in order, when the body is one object of the fragment;
`none` when it is not. -/
def readObject (body : String) : Option (List (String × JValue)) :=
  match skipWs body.data with
  | '{' :: rest =>
    match skipWs rest with
    | '}' :: tail => if skipWs tail = [] then some [] else none
    | inner => readMembers body.data.length inner
  | _ => none

/-- The fields the body of a request describes. -/
def Request.fields (r : Request) : Option (List (String × JValue)) :=
  match r.body with
  | none => none
  | some s => readObject s

/-- A character that may stand unescaped inside a JSON string: not a double quote, not a
backslash, not a control character. -/
def plainChar (c : Char) : Prop := c ≠ '"' ∧ c ≠ '\\' ∧ 32 ≤ c.toNat

instance (c : Char) : Decidable (plainChar c) := by
  unfold plainChar
  infer_instance

/-! ## Properties of `sendCommand` -/

/-- Whatever the answer, `sendCommand` issues exactly the one POST it was asked for. -/
theorem sendCommand_log (env : Env) (url : String) (reqBody : Bytes) (log : List Request) :
    (sendCommand env url reqBody log).2 = log ++ [⟨url, reqBody⟩] := by
  unfold sendCommand
  simp only [ActiveClient.post]
  split
  · rfl
  · split
    · split
      · rfl
      · split <;> rfl
    · rfl

/-- An error returned by `json.Unmarshal` is a decode error. -/
theorem Unmarshal_error_is_decode {α : Type} (decode : String → α → α × Option String)
    (data : Bytes) (v : α) (e : GoError) (h : (json.Unmarshal decode data v).2 = some e) :
    ∃ msg, e = GoError.decode msg := by
  unfold json.Unmarshal at h
  split at h
  · exact ⟨_, (Option.some.inj h).symm⟩
  · split at h
    · exact ⟨_, (Option.some.inj h).symm⟩
    · simp only [Option.map_eq_some'] at h
      obtain ⟨msg, _, hmsg⟩ := h
      exact ⟨msg, hmsg.symm⟩

/-- C1: when the POST succeeds with a non-empty body that decodes to an envelope with
`result = false` and a non-empty `reason = r`, `sendCommand` returns no body and an error whose
message is exactly `r`. -/
theorem sendCommand_remote_failure (env : Env) (url : String) (reqBody body : Bytes)
    (log : List Request) (r : String)
    (hpost : env.post url reqBody = (body, none))
    (hlen : 0 < len body)
    (hdec : json.Unmarshal env.decodeCommand body CommandResponse.zero = (⟨⟨r, false⟩⟩, none))
    (hr : r ≠ "") :
    (sendCommand env url reqBody log).1 = (none, some (errors.New r)) ∧
      (errors.New r).Error = r := by
  refine ⟨?_, rfl⟩
  simp [sendCommand, ActiveClient.post, hpost, hlen, hdec, hr]

/-- C1, run on the sample API: the body
`{"response":{"result":false,"reason":"could_not_wake_buses"}}` gives an error with message
`could_not_wake_buses`. -/
theorem sendCommand_remote_failure_witness :
    sampleEnv.post "https://api/vehicles/7/command/door_lock" none = (some failureBody, none) ∧
      (sendCommand sampleEnv "https://api/vehicles/7/command/door_lock" none []).1
        = (none, some (errors.New "could_not_wake_buses")) ∧
      (errors.New "could_not_wake_buses").Error = "could_not_wake_buses" :=
  ⟨by decide,
   sendCommand_remote_failure sampleEnv "https://api/vehicles/7/command/door_lock" none
     (some failureBody) [] "could_not_wake_buses" (by decide) (by decide) (by decide) (by decide)⟩

/-- C3: when the POST succeeds with an empty body, `sendCommand` reports success and returns that
body; the decoder plays no part in the outcome. -/
theorem sendCommand_empty_body (env : Env) (url : String) (reqBody body : Bytes)
    (log : List Request)
    (hpost : env.post url reqBody = (body, none))
    (hlen : len body = 0) :
    (sendCommand env url reqBody log).1 = (body, none) ∧
      ∀ d : String → CommandResponse → CommandResponse × Option String,
        sendCommand { env with decodeCommand := d } url reqBody log
          = sendCommand env url reqBody log := by
  constructor
  · simp [sendCommand, ActiveClient.post, hpost, hlen]
  · intro d
    simp [sendCommand, ActiveClient.post, hpost, hlen]

/-- C3, run on the sample API, whose vehicle 8 answers with an empty body. -/
theorem sendCommand_empty_body_witness :
    len (some "") = 0 ∧
      (sendCommand sampleEnv "https://api/vehicles/8/command/door_lock" none []).1
        = (some "", none) :=
  ⟨by decide,
   (sendCommand_empty_body sampleEnv "https://api/vehicles/8/command/door_lock" none (some "") []
     (by decide) (by decide)).1⟩

/-- C5: when the POST succeeds with a non-empty body that decodes to an envelope with
`result = true`, whatever its reason, `sendCommand` returns the body unchanged and a nil error. -/
theorem sendCommand_remote_success (env : Env) (url : String) (reqBody body : Bytes)
    (log : List Request) (reason : String)
    (hpost : env.post url reqBody = (body, none))
    (hlen : 0 < len body)
    (hdec : json.Unmarshal env.decodeCommand body CommandResponse.zero
      = (⟨⟨reason, true⟩⟩, none)) :
    (sendCommand env url reqBody log).1 = (body, none) := by
  simp [sendCommand, ActiveClient.post, hpost, hlen, hdec]

/-- C5, run on the sample API: the body `{"response":{"result":true,"reason":""}}`. -/
theorem sendCommand_remote_success_witness :
    sampleEnv.post "https://api/vehicles/1/command/door_lock" none = (some successBody, none) ∧
      (sendCommand sampleEnv "https://api/vehicles/1/command/door_lock" none []).1
        = (some successBody, none) :=
  ⟨by decide,
   sendCommand_remote_success sampleEnv "https://api/vehicles/1/command/door_lock" none
     (some successBody) [] "" (by decide) (by decide) (by decide)⟩

/-- C6: when the POST succeeds with a non-empty body whose decoding fails with `e`,
`sendCommand` returns no body and `e` itself, and `e` is not an error built by `errors.New`
from a reason string. -/
theorem sendCommand_decode_failure (env : Env) (url : String) (reqBody body : Bytes)
    (log : List Request) (e : GoError)
    (hpost : env.post url reqBody = (body, none))
    (hlen : 0 < len body)
    (hdec : (json.Unmarshal env.decodeCommand body CommandResponse.zero).2 = some e) :
    (sendCommand env url reqBody log).1 = (none, some e) ∧ ∀ r : String, e ≠ errors.New r := by
  constructor
  · simp [sendCommand, ActiveClient.post, hpost, hlen, hdec]
  · intro r hre
    obtain ⟨msg, hmsg⟩ := Unmarshal_error_is_decode _ _ _ _ hdec
    rw [hmsg] at hre
    exact GoError.noConfusion hre

/-- C6, run on the sample API, whose vehicle 9 answers with a body that is not JSON. -/
theorem sendCommand_decode_failure_witness :
    sampleEnv.post "https://api/vehicles/9/command/door_lock" none
        = (some malformedBody, none) ∧
      (sendCommand sampleEnv "https://api/vehicles/9/command/door_lock" none []).1
        = (none, some (.decode "invalid character '<' looking for beginning of value")) :=
  ⟨by decide,
   (sendCommand_decode_failure sampleEnv "https://api/vehicles/9/command/door_lock" none
     (some malformedBody) [] (.decode "invalid character '<' looking for beginning of value")
     (by decide) (by decide) (by decide)).1⟩

/-! ## Requests built by the commands -/

/-- C7: for every vehicle and every integer `percent`, `SetChargeLimit` issues exactly one POST,
to `BaseURL + "/vehicles/" + decimal(v.ID) + "/command/set_charge_limit"`, with the body
`{"percent": ` + decimal(percent) + `}`; the decimal text is the usual one, and
`SetChargeLimit(50)` sends `{"percent": 50}`. -/
theorem SetChargeLimit_request (env : Env) (v : Vehicle) (percent : Int) (log : List Request) :
    (v.SetChargeLimit env percent log).2
        = log ++ [⟨env.BaseURL ++ "/vehicles/" ++ strconv.FormatInt v.ID 10
                    ++ "/command/set_charge_limit",
                  some ("\x7b\"percent\": " ++ strconv.FormatInt percent 10 ++ "\x7d")⟩] ∧
      strconv.FormatInt percent 10 = toString percent ∧
      strconv.FormatInt v.ID 10 = toString v.ID ∧
      (v.SetChargeLimit env 50 log).2
        = log ++ [⟨env.BaseURL ++ "/vehicles/" ++ strconv.FormatInt v.ID 10
                    ++ "/command/set_charge_limit",
                  some "\x7b\"percent\": 50\x7d"⟩] := by
  refine ⟨rfl, ?_, ?_, rfl⟩
  · cases percent <;> rfl
  · cases v.ID <;> rfl

/-- C10: `SentryModeEnable` posts `{"on": true}` and `SentryModeDisable` posts `{"on": false}`,
both to `BaseURL + "/vehicles/" + decimal(v.ID) + "/command/set_sentry_mode"`, and the two
requests differ. -/
theorem SentryMode_requests (env : Env) (v : Vehicle) (log : List Request) :
    (v.SentryModeEnable env log).2
        = log ++ [⟨env.BaseURL ++ "/vehicles/" ++ strconv.FormatInt v.ID 10
                    ++ "/command/set_sentry_mode", some "\x7b\"on\": true\x7d"⟩] ∧
      (v.SentryModeDisable env log).2
        = log ++ [⟨env.BaseURL ++ "/vehicles/" ++ strconv.FormatInt v.ID 10
                    ++ "/command/set_sentry_mode", some "\x7b\"on\": false\x7d"⟩] ∧
      (v.SentryModeEnable env log).2 ≠ (v.SentryModeDisable env log).2 := by
  refine ⟨rfl, rfl, ?_⟩
  intro h
  have h2 : (⟨env.BaseURL ++ "/vehicles/" ++ strconv.FormatInt v.ID 10
      ++ "/command/set_sentry_mode", some "\x7b\"on\": true\x7d"⟩ : Request)
      = ⟨env.BaseURL ++ "/vehicles/" ++ strconv.FormatInt v.ID 10
      ++ "/command/set_sentry_mode", some "\x7b\"on\": false\x7d"⟩ :=
    List.singleton_inj.mp (List.append_cancel_left h)
  have h3 : (some "\x7b\"on\": true\x7d" : Bytes) = some "\x7b\"on\": false\x7d" :=
    congrArg Request.body h2
  exact absurd h3 (by decide)

/-! ## Commands that post directly -/

/-- The seven commands that call `ActiveClient.post` themselves return the failure of the POST,
if any, and nothing else: the response body is dropped unread. -/
theorem direct_post_error (env : Env) (v : Vehicle) (log : List Request) :
    (∀ percent : Int, ∃ url body,
        (v.SetChargeLimit env percent log).1 = (env.post url body).2.map GoError.transport) ∧
      (∀ offset : Int, ∃ url body,
        (v.ScheduleSoftwareUpdate env offset log).1
          = (env.post url body).2.map GoError.transport) ∧
      (∀ driver passenger : Float64, ∃ url body,
        (v.SetTemprature env driver passenger log).1
          = (env.post url body).2.map GoError.transport) ∧
      (∀ (state : String) (percent : Int), ∃ url body,
        (v.MovePanoRoof env state percent log).1 = (env.post url body).2.map GoError.transport) ∧
      (∀ trunk : String, ∃ url body,
        (v.OpenTrunk env trunk log).1 = (env.post url body).2.map GoError.transport) ∧
      (∃ url body, (v.SentryModeEnable env log).1 = (env.post url body).2.map GoError.transport) ∧
      (∃ url body, (v.SentryModeDisable env log).1 = (env.post url body).2.map GoError.transport) :=
  ⟨fun _ => ⟨_, _, rfl⟩, fun _ => ⟨_, _, rfl⟩, fun _ _ => ⟨_, _, rfl⟩, fun _ _ => ⟨_, _, rfl⟩,
   fun _ => ⟨_, _, rfl⟩, ⟨_, _, rfl⟩, ⟨_, _, rfl⟩⟩

/-- C2, at the failing input: the sample API answers every POST for vehicle 7 with the envelope
`{"response":{"result":false,"reason":"could_not_wake_buses"}}`.  `LockDoors`, which goes
through `sendCommand`, returns the error `could_not_wake_buses`; the seven commands that post
directly return a nil error. -/
theorem direct_post_commands_drop_reason :
    sampleEnv.post "https://api/vehicles/7/command/set_charge_limit"
        (some "\x7b\"percent\": 50\x7d") = (some failureBody, none) ∧
      json.Unmarshal sampleEnv.decodeCommand (some failureBody) CommandResponse.zero
        = (⟨⟨"could_not_wake_buses", false⟩⟩, none) ∧
      (Vehicle.LockDoors sampleEnv ⟨7, 7⟩ []).1 = some (errors.New "could_not_wake_buses") ∧
      (Vehicle.SetChargeLimit sampleEnv ⟨7, 7⟩ 50 []).1 = none ∧
      (Vehicle.ScheduleSoftwareUpdate sampleEnv ⟨7, 7⟩ 60 []).1 = none ∧
      (Vehicle.SetTemprature sampleEnv ⟨7, 7⟩ ⟨0⟩ ⟨0⟩ []).1 = none ∧
      (Vehicle.MovePanoRoof sampleEnv ⟨7, 7⟩ "vent" 0 []).1 = none ∧
      (Vehicle.OpenTrunk sampleEnv ⟨7, 7⟩ "rear" []).1 = none ∧
      (Vehicle.SentryModeEnable sampleEnv ⟨7, 7⟩ []).1 = none ∧
      (Vehicle.SentryModeDisable sampleEnv ⟨7, 7⟩ []).1 = none := by
  decide

/-! ## Wake-up -/

/-- An empty input makes `json.Unmarshal` fail and leaves the target as it was. -/
theorem Unmarshal_empty {α : Type} (decode : String → α → α × Option String) (data : Bytes)
    (v : α) (hlen : len data = 0) :
    json.Unmarshal decode data v = (v, some (.decode "unexpected end of JSON input")) := by
  cases data with
  | none => rfl
  | some s =>
    have hs : s.utf8ByteSize = 0 := hlen
    simp [json.Unmarshal, hs]

/-- C4, refuted: it is not so that `Wakeup` returns a nil error whenever the POST to `/wake_up`
succeeds with an empty body.  The sample API answers vehicle 8 with an empty body. -/
theorem Wakeup_empty_body_not_success :
    ¬ ∀ (env : Env) (v : Vehicle) (log : List Request) (body : Bytes),
        env.post (env.BaseURL ++ "/vehicles/" ++ strconv.FormatInt v.ID 10 ++ "/wake_up") none
          = (body, none) →
        len body = 0 → (v.Wakeup env log).1.2 = none := by
  intro h
  exact absurd (h sampleEnv ⟨8, 8⟩ [] (some "") (by decide) (by decide)) (by decide)

/-- C4, amended: when the POST to `/wake_up` succeeds with an empty body, `sendCommand` reports
success with that body, and `Wakeup`, which goes on to decode the body as a vehicle record,
returns no vehicle and the decode error `unexpected end of JSON input`, having issued the one
POST. -/
theorem Wakeup_empty_body (env : Env) (v : Vehicle) (log : List Request) (body : Bytes)
    (hpost : env.post (env.BaseURL ++ "/vehicles/" ++ strconv.FormatInt v.ID 10 ++ "/wake_up")
      none = (body, none))
    (hlen : len body = 0) :
    (sendCommand env (env.BaseURL ++ "/vehicles/" ++ strconv.FormatInt v.ID 10 ++ "/wake_up")
        none log).1 = (body, none) ∧
      v.Wakeup env log
        = ((none, some (.decode "unexpected end of JSON input")),
           log ++ [⟨env.BaseURL ++ "/vehicles/" ++ strconv.FormatInt v.ID 10 ++ "/wake_up",
                    none⟩]) := by
  have hsend := (sendCommand_empty_body env _ none body log hpost hlen).1
  refine ⟨hsend, ?_⟩
  have hlog := sendCommand_log env
    (env.BaseURL ++ "/vehicles/" ++ strconv.FormatInt v.ID 10 ++ "/wake_up") none log
  simp only [Vehicle.Wakeup, hsend, hlog, Unmarshal_empty _ _ _ hlen]

/-- C4, amended, run on the sample API, whose vehicle 8 answers with an empty body. -/
theorem Wakeup_empty_body_witness :
    sampleEnv.post "https://api/vehicles/8/wake_up" none = (some "", none) ∧
      Vehicle.Wakeup sampleEnv ⟨8, 8⟩ []
        = ((none, some (.decode "unexpected end of JSON input")),
           [⟨"https://api/vehicles/8/wake_up", none⟩]) :=
  ⟨by decide, (Wakeup_empty_body sampleEnv ⟨8, 8⟩ [] (some "") (by decide) (by decide)).2⟩

/-! ## Autopark and Homelink -/

/-- A failed drive-state read leaves zero-valued coordinates. -/
theorem DriveState_failure_zero (env : Env) (v : Vehicle) (hfail : (v.DriveState env).2 ≠ none) :
    (v.DriveState env).1 = ⟨0, 0⟩ := by
  unfold Vehicle.DriveState at hfail ⊢
  cases h : env.readDriveState v.ID with
  | inl driveState => simp [h] at hfail
  | inr msg => rfl

/-- C8: when the preliminary drive-state read fails, the autopark commands and `TriggerHomelink`
do not abort: each issues its one command POST, whose body is the marshalled request with `lat`
and `lon` both zero, and returns the error of that POST as `sendCommand` reports it. -/
theorem autoPark_TriggerHomelink_read_failure (env : Env) (v : Vehicle) (log : List Request)
    (hfail : (v.DriveState env).2 ≠ none) :
    (∀ action : String,
      v.autoPark env action log
        = ((sendCommand env
              (env.BaseURL ++ "/vehicles/" ++ strconv.FormatInt v.ID 10
                ++ "/command/autopark_request")
              (env.Marshal ⟨v.VehicleID, 0, 0, action⟩) log).1.2,
           log ++ [⟨env.BaseURL ++ "/vehicles/" ++ strconv.FormatInt v.ID 10
                      ++ "/command/autopark_request",
                    env.Marshal ⟨v.VehicleID, 0, 0, action⟩⟩])) ∧
      v.AutoparkAbort env log = v.autoPark env "abort" log ∧
      v.AutoparkForward env log = v.autoPark env "start_forward" log ∧
      v.AutoparkReverse env log = v.autoPark env "start_reverse" log ∧
      v.TriggerHomelink env log
        = ((sendCommand env
              (env.BaseURL ++ "/vehicles/" ++ strconv.FormatInt v.ID 10
                ++ "/command/trigger_homelink")
              (env.Marshal ⟨0, 0, 0, ""⟩) log).1.2,
           log ++ [⟨env.BaseURL ++ "/vehicles/" ++ strconv.FormatInt v.ID 10
                      ++ "/command/trigger_homelink",
                    env.Marshal ⟨0, 0, 0, ""⟩⟩]) := by
  have hz := DriveState_failure_zero env v hfail
  refine ⟨fun action => ?_, rfl, rfl, rfl, ?_⟩
  · simp only [Vehicle.autoPark, hz, sendCommand_log]
  · simp only [Vehicle.TriggerHomelink, hz, sendCommand_log]

/-- C8, run on the sample API, where the drive-state read of vehicle 7 fails. -/
theorem autoPark_TriggerHomelink_read_failure_witness :
    (Vehicle.DriveState sampleEnv ⟨7, 70⟩).2 ≠ none ∧
      Vehicle.AutoparkAbort sampleEnv ⟨7, 70⟩ []
        = ((sendCommand sampleEnv "https://api/vehicles/7/command/autopark_request"
              (sampleEnv.Marshal ⟨70, 0, 0, "abort"⟩) []).1.2,
           [⟨"https://api/vehicles/7/command/autopark_request",
             sampleEnv.Marshal ⟨70, 0, 0, "abort"⟩⟩]) :=
  ⟨by decide,
   ((autoPark_TriggerHomelink_read_failure sampleEnv ⟨7, 70⟩ [] (by decide)).2.1).trans
     ((autoPark_TriggerHomelink_read_failure sampleEnv ⟨7, 70⟩ [] (by decide)).1 "abort")⟩

/-! ## Tags spliced into a JSON body -/

/-- C9, at the failing inputs.  A tag without special characters gives the documented object.
A tag that is one double quote, or one backslash, gives a body that is no JSON object; a tag
holding a quote followed by further text gives an object with other fields than the documented
ones. -/
theorem OpenTrunk_MovePanoRoof_tag_not_escaped :
    (Vehicle.OpenTrunk sampleEnv ⟨1, 1⟩ "rear" []).2.map Request.fields
        = [some [("which_trunk", .str "rear")]] ∧
      (Vehicle.MovePanoRoof sampleEnv ⟨1, 1⟩ "vent" 15 []).2.map Request.fields
        = [some [("state", .str "vent"), ("percent", .num 15)]] ∧
      (Vehicle.OpenTrunk sampleEnv ⟨1, 1⟩ "\"" []).2.map Request.body
        = [some "\x7b\"which_trunk\": \"\"\"\x7d"] ∧
      (Vehicle.OpenTrunk sampleEnv ⟨1, 1⟩ "\"" []).2.map Request.fields = [none] ∧
      (Vehicle.OpenTrunk sampleEnv ⟨1, 1⟩ "\\" []).2.map Request.fields = [none] ∧
      (Vehicle.OpenTrunk sampleEnv ⟨1, 1⟩ "front\", \"which_trunk\": \"rear" []).2.map
          Request.fields
        = [some [("which_trunk", .str "front"), ("which_trunk", .str "rear")]] ∧
      (Vehicle.MovePanoRoof sampleEnv ⟨1, 1⟩ "\"" 0 []).2.map Request.fields = [none] ∧
      (Vehicle.MovePanoRoof sampleEnv ⟨1, 1⟩ "\\" 0 []).2.map Request.fields = [none] ∧
      (Vehicle.MovePanoRoof sampleEnv ⟨1, 1⟩ "open\", \"percent\":100, \"x\": \"" 0 []).2.map
          Request.fields
        = [some [("state", .str "open"), ("percent", .num 100), ("x", .str ""),
                 ("percent", .num 0)]] := by
  refine ⟨?_, ?_, ?_, ?_, ?_, ?_, ?_, ?_, ?_⟩ <;> decide

/-- Text made of plain characters and closed by a quote is read back as it stands. -/
theorem readString_plain (t rest : List Char) (h : ∀ c ∈ t, plainChar c) :
    readString (t ++ '"' :: rest) = some (t, rest) := by
  induction t with
  | nil => simp [readString]
  | cons c t ih =>
    have hc := h c (List.mem_cons_self c t)
    have ih2 := ih (fun d hd => h d (List.mem_cons_of_mem c hd))
    obtain ⟨h1, h2, h3⟩ := hc
    rw [List.cons_append]
    unfold readString
    split <;> simp_all

/-- Where `OpenTrunk` does meet the documented encoding: for a tag made of plain characters only,
the body is an object whose one field is `which_trunk`, with the tag as its value. -/
theorem OpenTrunk_plain_tag (env : Env) (v : Vehicle) (trunk : String) (log : List Request)
    (h : ∀ c ∈ trunk.data, plainChar c) :
    (v.OpenTrunk env trunk log).2.map Request.fields
      = log.map Request.fields ++ [some [("which_trunk", .str trunk)]] := by
  have hname :
      readString ("which_trunk".data ++ '"' :: ':' :: ' ' :: '"' :: (trunk.data ++ ['"', '}']))
        = some ("which_trunk".data, ':' :: ' ' :: '"' :: (trunk.data ++ ['"', '}'])) :=
    readString_plain _ _ (by decide)
  have hval : readString (trunk.data ++ '"' :: ['}']) = some (trunk.data, ['}']) :=
    readString_plain _ _ h
  simp only [Vehicle.OpenTrunk, ActiveClient.post, List.map_append, List.map_cons, List.map_nil,
    Request.fields, readObject, String.data_append]
  simp only [List.cons_append, List.nil_append, List.append_assoc] at hname ⊢
  simp [skipWs, readMembers, hname, readValue, hval]

/-- The tags `front` and `rear` are made of plain characters. -/
theorem OpenTrunk_plain_tag_witness :
    (Vehicle.OpenTrunk sampleEnv ⟨1, 1⟩ "front" []).2.map Request.fields
      = [some [("which_trunk", .str "front")]] :=
  OpenTrunk_plain_tag sampleEnv ⟨1, 1⟩ "front" [] (by decide)

end Tesla
